import Mathlib

/-!
Verification of the pico-littlefs-upload extension (src/extension.ts).

The whole program is one linear command handler.  We embed it as a pure
function from an input record (board metadata, port state, platform, the
temporary-file-name oracle and the two external-process oracles) to the
ordered list of observable events (terminal writes, build-property tool
lookups, the serial-port validation gate, process spawns) together with a
final outcome.  JavaScript numbers produced by Number(...) are modelled as
Option Int, with none standing for NaN; JavaScript truthiness and
comparison on those values are modelled explicitly.
-/

namespace PicoLittleFS

/-! ## JavaScript numeric model -/

/-- Whitespace characters trimmed by JS Number conversion (the common ones). -/
def isWsChar (c : Char) : Bool :=
  c == ' ' || c == '\t' || c == '\n' || c == '\r' || c == '\x0b' || c == '\x0c'

def trimWsChars (l : List Char) : List Char :=
  ((l.dropWhile isWsChar).reverse.dropWhile isWsChar).reverse

def hexDigitVal (c : Char) : Option Nat :=
  if '0' ≤ c ∧ c ≤ '9' then some (c.toNat - '0'.toNat)
  else if 'a' ≤ c ∧ c ≤ 'f' then some (c.toNat - 'a'.toNat + 10)
  else if 'A' ≤ c ∧ c ≤ 'F' then some (c.toNat - 'A'.toNat + 10)
  else none

def decDigitVal (c : Char) : Option Nat :=
  if '0' ≤ c ∧ c ≤ '9' then some (c.toNat - '0'.toNat) else none

/-- Parse a non-empty digit string in the given base; none on any bad digit. -/
def parseDigitsWith (dv : Char → Option Nat) (base : Nat) : List Char → Option Nat
  | [] => none
  | l =>
    l.foldl (fun acc c =>
      match acc, dv c with
      | some a, some d => some (a * base + d)
      | _, _ => none) (some 0)

/-- Model of the JavaScript Number(string) conversion on the integer literal
forms that board build properties use: optional surrounding whitespace, the
empty string (which JS converts to 0), decimal with optional sign, and 0x/0X
hexadecimal.  Every other form is modelled as NaN (none).  NaN is the none
value throughout. -/
def jsNumberOfString (s : String) : Option Int :=
  match trimWsChars s.data with
  | [] => some 0
  | '0' :: 'x' :: rest => (parseDigitsWith hexDigitVal 16 rest).map Int.ofNat
  | '0' :: 'X' :: rest => (parseDigitsWith hexDigitVal 16 rest).map Int.ofNat
  | '-' :: rest => (parseDigitsWith decDigitVal 10 rest).map (fun n => -(n : Int))
  | '+' :: rest => (parseDigitsWith decDigitVal 10 rest).map (fun n => (n : Int))
  | l => (parseDigitsWith decDigitVal 10 l).map (fun n => (n : Int))

/-- Number(buildProperties[key]): Number(undefined) is NaN. -/
def jsNumber : Option String → Option Int
  | none => none
  | some s => jsNumberOfString s

/-- JS String(n) for a number value; String(NaN) is the text NaN. -/
def jsStr : Option Int → String
  | none => "NaN"
  | some n => toString n

/-- JS subtraction on number values; NaN propagates. -/
def jsSub : Option Int → Option Int → Option Int
  | some a, some b => some (a - b)
  | _, _ => none

/-- JS falsiness of a number value: 0 and NaN are falsy. -/
def jsFalsy : Option Int → Bool
  | none => true
  | some n => n == 0

/-- JS comparison a less-or-equal b on number values: false if either is NaN. -/
def jsLe : Option Int → Option Int → Bool
  | some a, some b => a ≤ b
  | _, _ => false

/-! ## Board metadata (vscode-arduino-api shapes used by the source) -/

structure ConfigValue where
  value : String
  selected : Bool
  deriving DecidableEq

structure ConfigOpt where
  option : String
  values : List ConfigValue
  deriving DecidableEq

structure BoardDetails where
  /-- buildProperties as an ordered key/value list; object iteration order. -/
  buildProperties : List (String × String)
  configOptions : List ConfigOpt
  deriving DecidableEq

/-- Property access buildProperties[key] (extension.ts:116-123). -/
def lookupProp (bd : BoardDetails) (key : String) : Option String :=
  (bd.buildProperties.find? (fun p => p.1 == key)).map (fun p => p.2)

/-- Character-list prefix test (the startsWith of extension.ts:34). -/
def isPre : List Char → List Char → Bool
  | [], _ => true
  | _ :: _, [] => false
  | a :: s, b :: t => a == b && isPre s t

/-- findTool (extension.ts:29-41): first buildProperties key that starts with
the given text wins; its value is returned. -/
def findTool (bd : BoardDetails) (pre : String) : Option String :=
  (bd.buildProperties.find? (fun p => isPre pre.data p.1.data)).map (fun p => p.2)

/-! ## Geometry resolution (extension.ts:102-138) -/

/-- State of the mutable locals fsStart, fsEnd, page, blocksize, uploadSpeed. -/
structure GeoState where
  fsStart : Option Int
  fsEnd : Option Int
  page : Option Int
  blocksize : Option Int
  uploadSpeed : Option Int
  deriving DecidableEq

def optSeek (pico : Bool) : String := if pico then "flash" else "eesz"
def startMarker (pico : Bool) : String := if pico then "fs_start" else "spiffs_start"
def endMarker (pico : Bool) : String := if pico then "fs_end" else "spiffs_end"

/-- menustr of extension.ts:115. -/
def menuStr (pico : Bool) (v : String) : String :=
  "menu." ++ optSeek pico ++ "." ++ v ++ ".build."

def gStart (pico : Bool) (bd : BoardDetails) (v : String) : Option Int :=
  jsNumber (lookupProp bd (menuStr pico v ++ startMarker pico))

def gEnd (pico : Bool) (bd : BoardDetails) (v : String) : Option Int :=
  jsNumber (lookupProp bd (menuStr pico v ++ endMarker pico))

def gPage (pico : Bool) (bd : BoardDetails) (v : String) : Option Int :=
  if pico then some 256 else jsNumber (lookupProp bd (menuStr pico v ++ "spiffs_pagesize"))

def gBlock (pico : Bool) (bd : BoardDetails) (v : String) : Option Int :=
  if pico then some 4096 else jsNumber (lookupProp bd (menuStr pico v ++ "spiffs_blocksize"))

/-- Body of the inner values.forEach for the sizing option
(extension.ts:113-126): every selected value overwrites all four fields. -/
def applyValue (pico : Bool) (bd : BoardDetails) (st : GeoState) (itm : ConfigValue) : GeoState :=
  if itm.selected then
    { fsStart := gStart pico bd itm.value
      fsEnd := gEnd pico bd itm.value
      page := gPage pico bd itm.value
      blocksize := gBlock pico bd itm.value
      uploadSpeed := st.uploadSpeed }
  else st

/-- Body of the inner values.forEach for the baud option
(extension.ts:128-132). -/
def applyBaud (st : GeoState) (itm : ConfigValue) : GeoState :=
  if itm.selected then { st with uploadSpeed := jsNumberOfString itm.value } else st

/-- Body of configOptions.forEach (extension.ts:108-134). -/
def stepOption (pico : Bool) (bd : BoardDetails) (st : GeoState) (opt : ConfigOpt) : GeoState :=
  if opt.option == optSeek pico then
    opt.values.foldl (applyValue pico bd) st
  else if opt.option == "baud" then
    opt.values.foldl applyBaud st
  else st

/-- Initial values of the locals (extension.ts:103-107). -/
def initGeo : GeoState :=
  { fsStart := some 0, fsEnd := some 0, page := some 0, blocksize := some 0
    uploadSpeed := some 115200 }

def resolveGeometry (pico : Bool) (bd : BoardDetails) : GeoState :=
  bd.configOptions.foldl (stepOption pico bd) initGeo

/-- The validation gate of extension.ts:135. -/
def geoInvalid (st : GeoState) : Bool :=
  jsFalsy st.fsStart || jsFalsy st.fsEnd || jsFalsy st.page || jsFalsy st.blocksize ||
    jsLe st.fsEnd st.fsStart

/-- Split a character list at every occurrence of the separator, the way the
JS string split with a one-character separator behaves. -/
def splitCols (sep : Char) : List Char → List (List Char)
  | [] => [[]]
  | x :: t =>
    match splitCols sep t with
    | [] => [[]]
    | h :: r => if x == sep then [] :: h :: r else (x :: h) :: r

/-- fqbn.split(':')[1] switched over rp2040/esp8266 (extension.ts:87-100);
some true is the rp2040 (pico) family, some false is esp8266. -/
def familyOf (fqbn : String) : Option Bool :=
  match (splitCols ':' fqbn.data)[1]? with
  | some seg =>
    if seg == "rp2040".data then some true
    else if seg == "esp8266".data then some false
    else none
  | none => none

/-! ## Observable events and outcomes -/

inductive Event where
  | fired (s : String)
  | infoMessage (s : String)
  | toolLookup (key : String)
  | portValidated
  | spawned (cmd : String) (args : List String)
  deriving DecidableEq

inductive Outcome where
  | missingBoard
  | noDataFolder
  | unsupportedBoard
  | missingFsConfig
  | noPort
  | notSerial
  | stuck
  | buildFailed (code : Int)
  | uploadFailed (code : Int)
  | success
  deriving DecidableEq

def isSpawn : Event → Bool
  | .spawned _ _ => true
  | _ => false

def isToolLookup : Event → Bool
  | .toolLookup _ => true
  | _ => false

def isPortValidated : Event → Bool
  | .portValidated => true
  | _ => false

/-- Extract a spawn event's command and argument list. -/
def spawnOf : Event → Option (String × List String)
  | .spawned c a => some (c, a)
  | _ => none

/-- First spawned process of a trace, with its argument list. -/
def firstSpawn (t : List Event) : Option (String × List String) :=
  t.findSome? spawnOf

/-- Last element of a list, as the fold of the forEach-overwrite pattern. -/
def lastOf {α : Type} : List α → Option α
  | [] => none
  | a :: t =>
    match lastOf t with
    | none => some a
    | some v => some v

/-- Walking the trace front to back, an event satisfying p is seen no later
than the first event satisfying q (vacuously true when no q-event occurs). -/
def seenBefore (p q : Event → Bool) : List Event → Bool
  | [] => true
  | e :: t => if p e then true else if q e then false else seenBefore p q t

/-- Same walk, but remembers whether the list was exhausted. -/
def scanPQ (p q : Event → Bool) : List Event → Option Bool
  | [] => none
  | e :: t => if p e then some true else if q e then some false else scanPQ p q t

/-! ## Chunk forwarding (extension.ts:190-195 and 227-232) -/

/-- String(chunk).replace of every line feed by carriage-return line-feed:
the global regex replacement rewrites each line feed unconditionally. -/
def normalizeChunk (s : String) : String :=
  ⟨s.data.flatMap (fun c => if c = '\n' then ['\r', '\n'] else [c])⟩

/-- Helper for the spec-worded normalization: the flag records whether the
previous character was a carriage return. -/
def bareLFAux : Bool → List Char → List Char
  | _, [] => []
  | prevCR, c :: t =>
    if c = '\n' then (if prevCR then ['\n'] else ['\r', '\n']) ++ bareLFAux false t
    else c :: bareLFAux (c = '\r') t

/-- Modelled from the spec: rewrite only bare line feeds (those not already
preceded by a carriage return) to carriage-return line-feed, leaving
carriage-return line-feed pairs unchanged.  This is the transformation the
specification describes; the source applies normalizeChunk instead. -/
def normalizeBareLF (s : String) : String :=
  ⟨bareLFAux false s.data⟩

/-! ## Tool paths and argument lists -/

def mkKey (pico : Bool) : String :=
  if pico then "runtime.tools.pqt-mklittlefs" else "runtime.tools.mklittlefs"

def pyKey (pico : Bool) : String :=
  if pico then "runtime.tools.pqt-python3" else "runtime.tools.python3"

/-- mklittlefs command path (extension.ts:140-152). -/
def mkCmd (isWin32 : Bool) (bd : BoardDetails) (pico : Bool) : String :=
  let ext := if isWin32 then ".exe" else ""
  let base := "mklittlefs" ++ ext
  match findTool bd (mkKey pico) with
  | some t => t ++ "/" ++ base
  | none => base

/-- python3 command path (extension.ts:167-176). -/
def pyCmd (isWin32 : Bool) (bd : BoardDetails) (pico : Bool) : String :=
  let ext := if isWin32 then ".exe" else ""
  let base := "python3" ++ ext
  match findTool bd (pyKey pico) with
  | some t => t ++ "/" ++ base
  | none => base

/-- uf2conv.py script path (extension.ts:209-213). -/
def uf2convScript (bd : BoardDetails) : String :=
  match findTool bd "runtime.platform.path" with
  | some p => p ++ "/" ++ "tools/uf2conv.py"
  | none => "tools/uf2conv.py"

/-- upload.py script path (extension.ts:216-220). -/
def uploadScriptPath (bd : BoardDetails) : String :=
  match findTool bd "runtime.platform.path" with
  | some p => p ++ "/" ++ "tools/upload.py"
  | none => "tools/upload.py"

/-- buildOpts (extension.ts:183). -/
def mkBuildOpts (dataFolder : String) (st : GeoState) (imageFile : String) : List String :=
  ["-c", dataFolder, "-p", jsStr st.page, "-b", jsStr st.blocksize,
   "-s", jsStr (jsSub st.fsEnd st.fsStart), imageFile]

def joinArgs (l : List String) : String := String.intercalate " " l

/-! ## The pipeline -/

/-- All run inputs: ambient IDE state plus the oracles for the temporary file
name and the two external processes.  An exit oracle of none models a process
whose close event never fires: the source awaits a promise resolved only by
the close event (extension.ts:197-199, 234-236) and installs no error
handler, so in that case the handler suspends forever. -/
structure PipelineInput where
  boardDetails : Option BoardDetails
  fqbn : Option String
  sketchPath : String
  dataFolderExists : Bool
  portAddress : Option String
  portProtocol : Option String
  isWin32 : Bool
  tmpName : String
  mkfsOut : List String
  mkfsErr : List String
  mkfsExit : Option Int
  upldOut : List String
  upldErr : List String
  upldExit : Option Int

def clearSeq : String := "\x1b[2J\x1b[3J\x1b[;H"

def bannerMsg : String := "LittleFS Filesystem Uploader\r\n\r\n"

/-- Everything from extension.ts:167 (python3 lookup) to the end of the
handler, entered only after the serial-port checks pass. -/
def afterPort (inp : PipelineInput) (bd : BoardDetails) (pico : Bool) (st : GeoState)
    (mklittlefs serialPort : String) : List Event × Outcome :=
  let python3 := pyCmd inp.isWin32 bd pico
  let imageFile := inp.tmpName
  let dataFolder := inp.sketchPath ++ "/data"
  let buildOpts := mkBuildOpts dataFolder st imageFile
  let evs1 : List Event :=
    [Event.toolLookup (pyKey pico),
     Event.fired "Building LittleFS filesystem\r\n",
     Event.fired (mklittlefs ++ " " ++ joinArgs buildOpts ++ "\r\n"),
     Event.spawned mklittlefs buildOpts]
    ++ inp.mkfsOut.map (fun c => Event.fired (normalizeChunk c))
    ++ inp.mkfsErr.map (fun c => Event.fired (normalizeChunk c))
  match inp.mkfsExit with
  | none => (evs1, Outcome.stuck)
  | some code =>
    if code ≠ 0 then
      (evs1 ++ [Event.fired ("ERROR:  Mklittlefs failed, error code: " ++ toString code ++ "\r\n\r\n")],
       Outcome.buildFailed code)
    else
      let uploadOpts :=
        if pico then
          [uf2convScript bd, "--base", jsStr st.fsStart, "--serial", serialPort,
           "--family", "RP2040", imageFile]
        else
          [uploadScriptPath bd, "--chip", "esp8266", "--port", serialPort,
           "--baud", jsStr st.uploadSpeed, "write_flash", jsStr st.fsStart, imageFile]
      let evs2 := evs1 ++
        [Event.toolLookup "runtime.platform.path",
         Event.fired "\r\n\r\nUploading LittleFS filesystem\r\n",
         Event.fired (python3 ++ " " ++ joinArgs uploadOpts ++ "\r\n"),
         Event.spawned python3 uploadOpts]
        ++ inp.upldOut.map (fun c => Event.fired (normalizeChunk c))
        ++ inp.upldErr.map (fun c => Event.fired (normalizeChunk c))
      match inp.upldExit with
      | none => (evs2, Outcome.stuck)
      | some ucode =>
        if ucode ≠ 0 then
          (evs2 ++ [Event.fired ("ERROR:  Upload failed, error code: " ++ toString ucode ++ "\r\n\r\n")],
           Outcome.uploadFailed ucode)
        else
          (evs2 ++ [Event.fired "\r\nCompleted upload.\r\n\r\n",
                    Event.infoMessage "LittleFS upload completed!"],
           Outcome.success)

/-- Trace prefix common to every run that passes the geometry validation:
terminal clear and banner, then the mklittlefs tool lookup of
extension.ts:144-152, which the source performs before the port checks. -/
def tracePre (pico : Bool) : List Event :=
  [Event.fired clearSeq, Event.fired bannerMsg, Event.toolLookup (mkKey pico)]

/-- The uploadLittleFS command handler (extension.ts:57-245) as a function
from inputs and oracles to the event trace and final outcome. -/
def runPipeline (inp : PipelineInput) : List Event × Outcome :=
  match inp.boardDetails, inp.fqbn with
  | some bd, some fqbn =>
    let pre : List Event := [Event.fired clearSeq, Event.fired bannerMsg]
    if inp.dataFolderExists then
      match familyOf fqbn with
      | none =>
        (pre ++ [Event.fired "ERROR: Only Arduino-Pico RP2040 and ESP8266 supported.\r\n"],
         Outcome.unsupportedBoard)
      | some pico =>
        let st := resolveGeometry pico bd
        if geoInvalid st then
          (pre ++ [Event.fired "ERROR: No filesystem specified, check flash size menu\r\n"],
           Outcome.missingFsConfig)
        else
          match inp.portAddress with
          | none =>
            (tracePre pico ++ [Event.fired "ERROR: No port specified, check IDE menus.\r\n"],
             Outcome.noPort)
          | some serialPort =>
            if inp.portProtocol ≠ some "serial" then
              (tracePre pico ++
                 [Event.fired "ERROR: Only serial port upload supported at this time.\r\n"],
               Outcome.notSerial)
            else
              let r := afterPort inp bd pico st (mkCmd inp.isWin32 bd pico) serialPort
              (tracePre pico ++ Event.portValidated :: r.1, r.2)
    else
      (pre ++ [Event.fired "ERROR: No data folder found\r\n"], Outcome.noDataFolder)
  | _, _ =>
    ([Event.infoMessage "Board details not available. Compile the sketch once."],
     Outcome.missingBoard)

/-! ## Concrete sample inputs (the scenarios of the specification) -/

def bdPico : BoardDetails :=
  { buildProperties :=
      [("menu.flash.2MB.build.fs_start", "0x300000"),
       ("menu.flash.2MB.build.fs_end", "0x400000"),
       ("runtime.tools.pqt-mklittlefs.path", "/tools/mk"),
       ("runtime.tools.pqt-python3.path", "/tools/py"),
       ("runtime.platform.path", "/plat")]
    configOptions := [{ option := "flash", values := [{ value := "2MB", selected := true }] }] }

def inPico : PipelineInput :=
  { boardDetails := some bdPico
    fqbn := some "vendor:rp2040:boardX"
    sketchPath := "/sk"
    dataFolderExists := true
    portAddress := some "/dev/ttyACM0"
    portProtocol := some "serial"
    isWin32 := false
    tmpName := "/tmp/img.littlefs.bin"
    mkfsOut := []
    mkfsErr := []
    mkfsExit := some 0
    upldOut := []
    upldErr := []
    upldExit := some 0 }

def bdEsp : BoardDetails :=
  { buildProperties :=
      [("menu.eesz.4M2M.build.spiffs_start", "0x200000"),
       ("menu.eesz.4M2M.build.spiffs_end", "0x2FB000"),
       ("menu.eesz.4M2M.build.spiffs_pagesize", "256"),
       ("menu.eesz.4M2M.build.spiffs_blocksize", "8192"),
       ("runtime.tools.mklittlefs.path", "/tools/mk8266"),
       ("runtime.tools.python3.path", "/tools/py8266"),
       ("runtime.platform.path", "/plat8266")]
    configOptions :=
      [{ option := "eesz", values := [{ value := "4M2M", selected := true }] },
       { option := "baud", values := [{ value := "460800", selected := true }] }] }

def inEsp : PipelineInput :=
  { boardDetails := some bdEsp
    fqbn := some "vendor:esp8266:boardY"
    sketchPath := "/sk"
    dataFolderExists := true
    portAddress := some "/dev/ttyUSB0"
    portProtocol := some "serial"
    isWin32 := false
    tmpName := "/tmp/img.littlefs.bin"
    mkfsOut := []
    mkfsErr := []
    mkfsExit := some 0
    upldOut := []
    upldErr := []
    upldExit := some 0 }

/-- Board with two selected sizing values: used to exhibit last-wins. -/
def bdTwoSel : BoardDetails :=
  { buildProperties :=
      [("menu.flash.1MB.build.fs_start", "1"),
       ("menu.flash.1MB.build.fs_end", "2"),
       ("menu.flash.2MB.build.fs_start", "3"),
       ("menu.flash.2MB.build.fs_end", "4")]
    configOptions :=
      [{ option := "flash",
         values := [{ value := "1MB", selected := true },
                    { value := "2MB", selected := true }] }] }

/-- Same run as inPico but the builder exits with code 2. -/
def inPicoFailBuild : PipelineInput := { inPico with mkfsExit := some 2 }

/-- Same run as inPico but the builder close event never fires (spawn failure). -/
def inPicoStall : PipelineInput := { inPico with mkfsExit := none }

/-- Same run as inPico with a different generated temporary name. -/
def inPicoAltTmp : PipelineInput := { inPico with tmpName := "/tmp/other.littlefs.bin" }

/-- Same run as inPico with one builder stdout chunk that already ends in CRLF. -/
def inPicoChunk : PipelineInput := { inPico with mkfsOut := ["a\r\n"] }

/-! ## Characterizing the forEach folds -/

/-- All selected values of sizing options, in sequence order. -/
def seekSel (pico : Bool) (opts : List ConfigOpt) : List String :=
  opts.flatMap (fun o =>
    if o.option == optSeek pico then
      (o.values.filter (fun i => i.selected)).map (fun i => i.value)
    else [])

/-- All selected values of baud options, in sequence order. -/
def baudSel (opts : List ConfigOpt) : List String :=
  opts.flatMap (fun o =>
    if o.option == "baud" then
      (o.values.filter (fun i => i.selected)).map (fun i => i.value)
    else [])

/-- Overwrite the geometry fields from the given selected value, if any. -/
def applyGeoLast (pico : Bool) (bd : BoardDetails) (o : Option String) (st : GeoState) : GeoState :=
  match o with
  | none => st
  | some v =>
    { fsStart := gStart pico bd v
      fsEnd := gEnd pico bd v
      page := gPage pico bd v
      blocksize := gBlock pico bd v
      uploadSpeed := st.uploadSpeed }

/-- Overwrite the upload speed from the given selected value, if any. -/
def applyBaudLast (o : Option String) (st : GeoState) : GeoState :=
  match o with
  | none => st
  | some v => { st with uploadSpeed := jsNumberOfString v }

lemma lastOf_cons {α : Type} (a : α) (t : List α) :
    lastOf (a :: t) = (lastOf t).or (some a) := by
  cases h : lastOf t <;> simp [lastOf, h, Option.or]

lemma lastOf_append {α : Type} (xs ys : List α) :
    lastOf (xs ++ ys) = (lastOf ys).or (lastOf xs) := by
  induction xs with
  | nil => cases h : lastOf ys <;> simp [lastOf, Option.or, h]
  | cons a t ih =>
    simp only [List.cons_append, lastOf_cons, ih]
    cases lastOf ys <;> cases lastOf t <;> simp [Option.or]

lemma applyGeoLast_comp (pico : Bool) (bd : BoardDetails) (a b : Option String) (st : GeoState) :
    applyGeoLast pico bd b (applyGeoLast pico bd a st) = applyGeoLast pico bd (b.or a) st := by
  cases b <;> cases a <;> rfl

lemma applyBaudLast_comp (a b : Option String) (st : GeoState) :
    applyBaudLast b (applyBaudLast a st) = applyBaudLast (b.or a) st := by
  cases b <;> cases a <;> rfl

lemma applyGeo_baud_comm (pico : Bool) (bd : BoardDetails) (a b : Option String) (st : GeoState) :
    applyBaudLast b (applyGeoLast pico bd a st) = applyGeoLast pico bd a (applyBaudLast b st) := by
  cases a <;> cases b <;> rfl

lemma lastOf_nil {α : Type} : lastOf ([] : List α) = none := rfl

lemma foldl_applyValue (pico : Bool) (bd : BoardDetails) (vs : List ConfigValue) (st : GeoState) :
    vs.foldl (applyValue pico bd) st =
      applyGeoLast pico bd (lastOf ((vs.filter (fun i => i.selected)).map (fun i => i.value))) st := by
  induction vs generalizing st with
  | nil => rfl
  | cons i t ih =>
    by_cases hs : i.selected
    · have h1 : applyValue pico bd st i = applyGeoLast pico bd (some i.value) st := by
        simp [applyValue, hs, applyGeoLast]
      rw [List.foldl_cons, h1, ih, applyGeoLast_comp]
      simp [List.filter_cons, hs, lastOf_cons]
    · have h1 : applyValue pico bd st i = st := by simp [applyValue, hs]
      rw [List.foldl_cons, h1, ih]
      simp [List.filter_cons, hs]

lemma foldl_applyBaud (vs : List ConfigValue) (st : GeoState) :
    vs.foldl applyBaud st =
      applyBaudLast (lastOf ((vs.filter (fun i => i.selected)).map (fun i => i.value))) st := by
  induction vs generalizing st with
  | nil => rfl
  | cons i t ih =>
    by_cases hs : i.selected
    · have h1 : applyBaud st i = applyBaudLast (some i.value) st := by
        simp [applyBaud, hs, applyBaudLast]
      rw [List.foldl_cons, h1, ih, applyBaudLast_comp]
      simp [List.filter_cons, hs, lastOf_cons]
    · have h1 : applyBaud st i = st := by simp [applyBaud, hs]
      rw [List.foldl_cons, h1, ih]
      simp [List.filter_cons, hs]

lemma optSeek_ne_baud (pico : Bool) : optSeek pico ≠ "baud" := by
  cases pico <;> decide

lemma foldl_stepOption (pico : Bool) (bd : BoardDetails) (opts : List ConfigOpt) (st : GeoState) :
    opts.foldl (stepOption pico bd) st =
      applyGeoLast pico bd (lastOf (seekSel pico opts))
        (applyBaudLast (lastOf (baudSel opts)) st) := by
  induction opts generalizing st with
  | nil => rfl
  | cons o t ih =>
    by_cases h1 : o.option = optSeek pico
    · have h2 : o.option ≠ "baud" := by rw [h1]; exact optSeek_ne_baud pico
      have hstep : stepOption pico bd st o = o.values.foldl (applyValue pico bd) st := by
        simp [stepOption, h1]
      rw [List.foldl_cons, hstep, foldl_applyValue, ih, applyGeo_baud_comm, applyGeoLast_comp]
      simp [seekSel, baudSel, h1, h2, lastOf_append, lastOf_nil, Option.or_none,
        optSeek_ne_baud pico]
    · by_cases h2 : o.option = "baud"
      · have h3 : ¬("baud" = optSeek pico) := by rw [← h2]; exact h1
        have hstep : stepOption pico bd st o = o.values.foldl applyBaud st := by
          simp [stepOption, h1, h2, h3]
        rw [List.foldl_cons, hstep, foldl_applyBaud, ih, applyBaudLast_comp]
        simp [seekSel, baudSel, h1, h2, h3, lastOf_append, lastOf_nil, Option.or_none]
      · have hstep : stepOption pico bd st o = st := by simp [stepOption, h1, h2]
        rw [List.foldl_cons, hstep, ih]
        simp [seekSel, baudSel, h1, h2, lastOf_append, lastOf_nil, Option.or_none]

lemma resolveGeometry_eq (pico : Bool) (bd : BoardDetails) :
    resolveGeometry pico bd =
      applyGeoLast pico bd (lastOf (seekSel pico bd.configOptions))
        (applyBaudLast (lastOf (baudSel bd.configOptions)) initGeo) :=
  foldl_stepOption pico bd bd.configOptions initGeo

lemma resolveGeometry_fsStart (pico : Bool) (bd : BoardDetails) :
    (resolveGeometry pico bd).fsStart =
      (match lastOf (seekSel pico bd.configOptions) with
       | none => some 0
       | some v => gStart pico bd v) := by
  rw [resolveGeometry_eq]
  cases lastOf (seekSel pico bd.configOptions) <;>
    cases lastOf (baudSel bd.configOptions) <;>
      simp [applyGeoLast, applyBaudLast, initGeo]

lemma resolveGeometry_fsEnd (pico : Bool) (bd : BoardDetails) :
    (resolveGeometry pico bd).fsEnd =
      (match lastOf (seekSel pico bd.configOptions) with
       | none => some 0
       | some v => gEnd pico bd v) := by
  rw [resolveGeometry_eq]
  cases lastOf (seekSel pico bd.configOptions) <;>
    cases lastOf (baudSel bd.configOptions) <;>
      simp [applyGeoLast, applyBaudLast, initGeo]

lemma resolveGeometry_page (pico : Bool) (bd : BoardDetails) :
    (resolveGeometry pico bd).page =
      (match lastOf (seekSel pico bd.configOptions) with
       | none => some 0
       | some v => gPage pico bd v) := by
  rw [resolveGeometry_eq]
  cases lastOf (seekSel pico bd.configOptions) <;>
    cases lastOf (baudSel bd.configOptions) <;>
      simp [applyGeoLast, applyBaudLast, initGeo]

lemma resolveGeometry_blocksize (pico : Bool) (bd : BoardDetails) :
    (resolveGeometry pico bd).blocksize =
      (match lastOf (seekSel pico bd.configOptions) with
       | none => some 0
       | some v => gBlock pico bd v) := by
  rw [resolveGeometry_eq]
  cases lastOf (seekSel pico bd.configOptions) <;>
    cases lastOf (baudSel bd.configOptions) <;>
      simp [applyGeoLast, applyBaudLast, initGeo]

lemma resolveGeometry_uploadSpeed (pico : Bool) (bd : BoardDetails) :
    (resolveGeometry pico bd).uploadSpeed =
      (match lastOf (baudSel bd.configOptions) with
       | none => some 115200
       | some v => jsNumberOfString v) := by
  rw [resolveGeometry_eq]
  cases lastOf (seekSel pico bd.configOptions) <;>
    cases lastOf (baudSel bd.configOptions) <;>
      simp [applyGeoLast, applyBaudLast, initGeo]

/-! ## Truthiness characterizations -/

lemma jsFalsy_iff (o : Option Int) : jsFalsy o = true ↔ o = none ∨ o = some 0 := by
  cases o <;> simp [jsFalsy]

lemma jsFalsy_false_iff (o : Option Int) : jsFalsy o = false ↔ ∃ n, o = some n ∧ n ≠ 0 := by
  cases o <;> simp [jsFalsy]

lemma jsLe_iff (a b : Option Int) :
    jsLe a b = true ↔ ∃ x y, a = some x ∧ b = some y ∧ x ≤ y := by
  cases a <;> cases b <;> simp [jsLe]

lemma geoInvalid_iff (st : GeoState) :
    geoInvalid st = true ↔
      (st.fsStart = none ∨ st.fsStart = some 0) ∨ (st.fsEnd = none ∨ st.fsEnd = some 0) ∨
      (st.page = none ∨ st.page = some 0) ∨ (st.blocksize = none ∨ st.blocksize = some 0) ∨
      (∃ e s, st.fsEnd = some e ∧ st.fsStart = some s ∧ e ≤ s) := by
  simp only [geoInvalid, Bool.or_eq_true, jsFalsy_iff, jsLe_iff]
  tauto

lemma geoValid_parts (st : GeoState) (h : geoInvalid st = false) :
    jsFalsy st.fsStart = false ∧ jsFalsy st.fsEnd = false ∧ jsFalsy st.page = false ∧
      jsFalsy st.blocksize = false ∧ jsLe st.fsEnd st.fsStart = false := by
  simp only [geoInvalid, Bool.or_eq_false_iff] at h
  exact ⟨h.1.1.1.1, h.1.1.1.2, h.1.1.2, h.1.2, h.2⟩

/-! ## Trace ordering helpers -/

lemma seenBefore_append (p q : Event → Bool) (xs ys : List Event) :
    seenBefore p q (xs ++ ys) = (scanPQ p q xs).getD (seenBefore p q ys) := by
  induction xs with
  | nil => simp [scanPQ, seenBefore]
  | cons e t ih =>
    by_cases hp : p e
    · simp [seenBefore, scanPQ, hp]
    · by_cases hq : q e
      · simp [seenBefore, scanPQ, hp, hq]
      · simp [seenBefore, scanPQ, hp, hq, ih]

lemma seenBefore_of_no_q (p q : Event → Bool) (t : List Event)
    (h : ∀ e ∈ t, q e = false) : seenBefore p q t = true := by
  induction t with
  | nil => rfl
  | cons e t ih =>
    have hq := h e (by simp)
    by_cases hp : p e
    · simp [seenBefore, hp]
    · simp only [seenBefore, hp, if_false, hq, Bool.false_eq_true]
      exact ih (fun e2 he2 => h e2 (by simp [he2]))

lemma filter_isSpawn_map_fired (l : List String) (f : String → String) :
    (l.map (fun c => Event.fired (f c))).filter isSpawn = [] := by
  refine List.filter_eq_nil_iff.mpr ?_
  intro a ha
  obtain ⟨c, _, rfl⟩ := List.mem_map.mp ha
  simp [isSpawn]

lemma findSome?_spawnOf_map_fired (l : List String) (f : String → String) :
    (l.map (fun c => Event.fired (f c))).findSome? spawnOf = none := by
  induction l with
  | nil => rfl
  | cons c t ih => simp [spawnOf, ih]

/-! ## Shape of the post-port-check stage -/

lemma afterPort_shape (inp : PipelineInput) (bd : BoardDetails) (pico : Bool) (st : GeoState)
    (mk port : String) :
    ∃ rest : List Event,
      (afterPort inp bd pico st mk port).1 =
        ([Event.toolLookup (pyKey pico),
          Event.fired "Building LittleFS filesystem\r\n",
          Event.fired (mk ++ " " ++ joinArgs (mkBuildOpts (inp.sketchPath ++ "/data") st inp.tmpName) ++ "\r\n"),
          Event.spawned mk (mkBuildOpts (inp.sketchPath ++ "/data") st inp.tmpName)]
          ++ inp.mkfsOut.map (fun c => Event.fired (normalizeChunk c))
          ++ inp.mkfsErr.map (fun c => Event.fired (normalizeChunk c))) ++ rest := by
  unfold afterPort
  cases inp.mkfsExit with
  | none => exact ⟨[], by simp⟩
  | some code =>
    by_cases hc : code = 0
    · simp only [hc, ne_eq, not_true_eq_false, if_false, reduceIte]
      cases inp.upldExit with
      | none =>
        exact ⟨_, by simp; rfl⟩
      | some u =>
        by_cases hu : u = 0
        · simp only [hu, ne_eq, not_true_eq_false, reduceIte]
          exact ⟨_, by simp; rfl⟩
        · simp only [ne_eq, hu, not_false_eq_true, reduceIte]
          exact ⟨_, by simp; rfl⟩
    · simp only [ne_eq, hc, not_false_eq_true, reduceIte]
      exact ⟨_, by simp; rfl⟩

lemma afterPort_firstSpawn (inp : PipelineInput) (bd : BoardDetails) (pico : Bool) (st : GeoState)
    (mk port : String) :
    (afterPort inp bd pico st mk port).1.findSome? spawnOf =
      some (mk, mkBuildOpts (inp.sketchPath ++ "/data") st inp.tmpName) := by
  obtain ⟨rest, hr⟩ := afterPort_shape inp bd pico st mk port
  rw [hr]
  simp [List.findSome?_append, spawnOf, findSome?_spawnOf_map_fired, Option.or]

lemma afterPort_ne_missingFs (inp : PipelineInput) (bd : BoardDetails) (pico : Bool)
    (st : GeoState) (mk port : String) :
    (afterPort inp bd pico st mk port).2 ≠ Outcome.missingFsConfig := by
  unfold afterPort
  cases inp.mkfsExit with
  | none => simp
  | some code =>
    by_cases hc : code = 0
    · simp only [hc, ne_eq, not_true_eq_false, reduceIte]
      cases inp.upldExit with
      | none => simp
      | some u => by_cases hu : u = 0 <;> simp [hu]
    · simp [hc]

lemma afterPort_buildFail (inp : PipelineInput) (bd : BoardDetails) (pico : Bool) (st : GeoState)
    (mk port : String) (code : Int) (hx : inp.mkfsExit = some code) (hc : code ≠ 0) :
    (afterPort inp bd pico st mk port).1.filter isSpawn =
        [Event.spawned mk (mkBuildOpts (inp.sketchPath ++ "/data") st inp.tmpName)] ∧
      (afterPort inp bd pico st mk port).2 = Outcome.buildFailed code ∧
      Event.fired ("ERROR:  Mklittlefs failed, error code: " ++ toString code ++ "\r\n\r\n")
        ∈ (afterPort inp bd pico st mk port).1 := by
  unfold afterPort
  rw [hx]
  simp [hc, List.filter_append, filter_isSpawn_map_fired, List.filter_cons, isSpawn]

lemma afterPort_stuckShape (inp : PipelineInput) (bd : BoardDetails) (pico : Bool) (st : GeoState)
    (mk port : String) (hx : inp.mkfsExit = none) (ho : inp.mkfsOut = []) (he : inp.mkfsErr = []) :
    (afterPort inp bd pico st mk port).2 = Outcome.stuck ∧
      lastOf (afterPort inp bd pico st mk port).1 =
        some (Event.spawned mk (mkBuildOpts (inp.sketchPath ++ "/data") st inp.tmpName)) := by
  unfold afterPort
  rw [hx, ho, he]
  simp [lastOf]

lemma afterPort_uploadSpawn (inp : PipelineInput) (bd : BoardDetails) (st : GeoState)
    (mk port : String) (hx : inp.mkfsExit = some 0) :
    Event.spawned (pyCmd inp.isWin32 bd false)
        [uploadScriptPath bd, "--chip", "esp8266", "--port", port,
         "--baud", jsStr st.uploadSpeed, "write_flash", jsStr st.fsStart, inp.tmpName]
      ∈ (afterPort inp bd false st mk port).1 := by
  unfold afterPort
  rw [hx]
  cases inp.upldExit with
  | none => simp
  | some u => by_cases hu : u = 0 <;> simp [hu]

/-! ## Reaching the main branch -/

lemma runPipeline_main (inp : PipelineInput) (bd : BoardDetails) (fqbn : String) (pico : Bool)
    (serialPort : String)
    (h1 : inp.boardDetails = some bd) (h2 : inp.fqbn = some fqbn)
    (h3 : inp.dataFolderExists = true) (h4 : familyOf fqbn = some pico)
    (h5 : geoInvalid (resolveGeometry pico bd) = false)
    (h6 : inp.portAddress = some serialPort) (h7 : inp.portProtocol = some "serial") :
    runPipeline inp =
      (tracePre pico ++ Event.portValidated ::
         (afterPort inp bd pico (resolveGeometry pico bd) (mkCmd inp.isWin32 bd pico) serialPort).1,
       (afterPort inp bd pico (resolveGeometry pico bd) (mkCmd inp.isWin32 bd pico) serialPort).2) := by
  simp [runPipeline, h1, h2, h3, h4, h5, h6, h7, tracePre]

lemma runPipeline_cases (inp : PipelineInput) :
    (∀ e ∈ (runPipeline inp).1, isSpawn e = false ∧ isPortValidated e = false) ∨
    (∃ bd fqbn pico serialPort,
      inp.boardDetails = some bd ∧ inp.fqbn = some fqbn ∧ inp.dataFolderExists = true ∧
      familyOf fqbn = some pico ∧ geoInvalid (resolveGeometry pico bd) = false ∧
      inp.portAddress = some serialPort ∧ inp.portProtocol = some "serial") := by
  cases hb : inp.boardDetails with
  | none => left; simp [runPipeline, hb, isSpawn, isPortValidated]
  | some bd =>
    cases hf : inp.fqbn with
    | none => left; simp [runPipeline, hb, hf, isSpawn, isPortValidated]
    | some fqbn =>
      cases hd : inp.dataFolderExists with
      | false => left; simp [runPipeline, hb, hf, hd, isSpawn, isPortValidated]
      | true =>
        cases hfam : familyOf fqbn with
        | none => left; simp [runPipeline, hb, hf, hd, hfam, isSpawn, isPortValidated]
        | some pico =>
          cases hg : geoInvalid (resolveGeometry pico bd) with
          | true => left; simp [runPipeline, hb, hf, hd, hfam, hg, isSpawn, isPortValidated]
          | false =>
            cases hp : inp.portAddress with
            | none =>
              left
              simp [runPipeline, hb, hf, hd, hfam, hg, hp, tracePre, isSpawn, isPortValidated]
            | some port =>
              by_cases hpr : inp.portProtocol = some "serial"
              · right; exact ⟨bd, fqbn, pico, port, rfl, rfl, rfl, hfam, hg, rfl, hpr⟩
              · left
                simp [runPipeline, hb, hf, hd, hfam, hg, hp, hpr, tracePre, isSpawn,
                  isPortValidated]

lemma spawnOf_eq_none (e : Event) (h : isSpawn e = false) : spawnOf e = none := by
  cases e <;> simp_all [isSpawn, spawnOf]

lemma firstSpawn_eq_none (t : List Event) (h : ∀ e ∈ t, isSpawn e = false) :
    firstSpawn t = none :=
  List.findSome?_eq_none_iff.mpr (fun e he => spawnOf_eq_none e (h e he))

lemma runPipeline_tmp_main (inp : PipelineInput) (t : String) (bd : BoardDetails)
    (fqbn : String) (pico : Bool) (serialPort : String)
    (h1 : inp.boardDetails = some bd) (h2 : inp.fqbn = some fqbn)
    (h3 : inp.dataFolderExists = true) (h4 : familyOf fqbn = some pico)
    (h5 : geoInvalid (resolveGeometry pico bd) = false)
    (h6 : inp.portAddress = some serialPort) (h7 : inp.portProtocol = some "serial") :
    firstSpawn (runPipeline { inp with tmpName := t }).1 =
      some (mkCmd inp.isWin32 bd pico,
        mkBuildOpts (inp.sketchPath ++ "/data") (resolveGeometry pico bd) t) := by
  rw [runPipeline_main { inp with tmpName := t } bd fqbn pico serialPort h1 h2 h3 h4 h5 h6 h7]
  simp only [firstSpawn, List.findSome?_append, List.findSome?_cons, spawnOf]
  rw [afterPort_firstSpawn]
  simp [tracePre, spawnOf, Option.or]

lemma bareLFAux_no_cr (l : List Char) (h : ∀ c ∈ l, c ≠ '\r') :
    bareLFAux false l = l.flatMap (fun c => if c = '\n' then ['\r', '\n'] else [c]) := by
  induction l with
  | nil => rfl
  | cons c t ih =>
    have hc : c ≠ '\r' := h c (by simp)
    have iht := ih (fun c2 hc2 => h c2 (by simp [hc2]))
    by_cases hn : c = '\n'
    · subst hn
      simp [bareLFAux, iht]
    · simp [bareLFAux, hn, hc, iht]

/-! ## Claim theorems -/

/-- C1: for every board metadata (once the board, family and data-folder gates
have passed), the run ends in the MissingFilesystemConfig outcome if and only
if one of the resolved start, end, page or block size values is missing (NaN)
or zero, or the resolved end is at most the resolved start; otherwise the
resolved size end minus start exists, is strictly positive, and is the value
rendered into the size argument. -/
theorem geometry_validation_iff (inp : PipelineInput) (bd : BoardDetails) (fqbn : String)
    (pico : Bool)
    (h1 : inp.boardDetails = some bd) (h2 : inp.fqbn = some fqbn)
    (h3 : inp.dataFolderExists = true) (h4 : familyOf fqbn = some pico) :
    ((runPipeline inp).2 = Outcome.missingFsConfig ↔
      ((resolveGeometry pico bd).fsStart = none ∨ (resolveGeometry pico bd).fsStart = some 0) ∨
      ((resolveGeometry pico bd).fsEnd = none ∨ (resolveGeometry pico bd).fsEnd = some 0) ∨
      ((resolveGeometry pico bd).page = none ∨ (resolveGeometry pico bd).page = some 0) ∨
      ((resolveGeometry pico bd).blocksize = none ∨ (resolveGeometry pico bd).blocksize = some 0) ∨
      (∃ e s, (resolveGeometry pico bd).fsEnd = some e ∧
        (resolveGeometry pico bd).fsStart = some s ∧ e ≤ s)) ∧
    ((runPipeline inp).2 ≠ Outcome.missingFsConfig →
      ∃ e s, (resolveGeometry pico bd).fsEnd = some e ∧
        (resolveGeometry pico bd).fsStart = some s ∧
        jsSub (resolveGeometry pico bd).fsEnd (resolveGeometry pico bd).fsStart = some (e - s) ∧
        0 < e - s ∧
        jsStr (jsSub (resolveGeometry pico bd).fsEnd (resolveGeometry pico bd).fsStart) =
          toString (e - s)) := by
  have hiff := geoInvalid_iff (resolveGeometry pico bd)
  cases hg : geoInvalid (resolveGeometry pico bd) with
  | true =>
    have hout : (runPipeline inp).2 = Outcome.missingFsConfig := by
      simp [runPipeline, h1, h2, h3, h4, hg]
    have hrhs := hiff.mp hg
    exact ⟨iff_of_true hout hrhs, fun hne => absurd hout hne⟩
  | false =>
    have hne : (runPipeline inp).2 ≠ Outcome.missingFsConfig := by
      cases hp : inp.portAddress with
      | none => simp [runPipeline, h1, h2, h3, h4, hg, hp]
      | some port =>
        by_cases hpr : inp.portProtocol = some "serial"
        · rw [runPipeline_main inp bd fqbn pico port h1 h2 h3 h4 hg hp hpr]
          exact afterPort_ne_missingFs inp bd pico (resolveGeometry pico bd)
            (mkCmd inp.isWin32 bd pico) port
        · simp [runPipeline, h1, h2, h3, h4, hg, hp, hpr]
    have hrhs :
        ¬(((resolveGeometry pico bd).fsStart = none ∨ (resolveGeometry pico bd).fsStart = some 0) ∨
          ((resolveGeometry pico bd).fsEnd = none ∨ (resolveGeometry pico bd).fsEnd = some 0) ∨
          ((resolveGeometry pico bd).page = none ∨ (resolveGeometry pico bd).page = some 0) ∨
          ((resolveGeometry pico bd).blocksize = none ∨
            (resolveGeometry pico bd).blocksize = some 0) ∨
          (∃ e s, (resolveGeometry pico bd).fsEnd = some e ∧
            (resolveGeometry pico bd).fsStart = some s ∧ e ≤ s)) := by
      intro hr
      have := hiff.mpr hr
      rw [hg] at this
      exact absurd this (by decide)
    obtain ⟨hfS, hfE, _, _, hle⟩ := geoValid_parts _ hg
    obtain ⟨e, he, _⟩ := (jsFalsy_false_iff _).mp hfE
    obtain ⟨s, hs, _⟩ := (jsFalsy_false_iff _).mp hfS
    have hlt : s < e := by
      by_contra hles
      push_neg at hles
      have htrue : jsLe (resolveGeometry pico bd).fsEnd (resolveGeometry pico bd).fsStart = true :=
        (jsLe_iff _ _).mpr ⟨e, s, he, hs, hles⟩
      rw [htrue] at hle
      exact absurd hle (by decide)
    refine ⟨iff_of_false hne hrhs, fun _ => ⟨e, s, he, hs, ?_, ?_, ?_⟩⟩
    · simp [jsSub, he, hs]
    · omega
    · simp [jsSub, he, hs, jsStr]

/-- C1 witness: the rp2040 sample board resolves a valid geometry, so the run
does not end in MissingFilesystemConfig and the size is positive. -/
theorem geometry_validation_iff_witness :
    ((runPipeline inPico).2 = Outcome.missingFsConfig ↔
      ((resolveGeometry true bdPico).fsStart = none ∨
        (resolveGeometry true bdPico).fsStart = some 0) ∨
      ((resolveGeometry true bdPico).fsEnd = none ∨
        (resolveGeometry true bdPico).fsEnd = some 0) ∨
      ((resolveGeometry true bdPico).page = none ∨ (resolveGeometry true bdPico).page = some 0) ∨
      ((resolveGeometry true bdPico).blocksize = none ∨
        (resolveGeometry true bdPico).blocksize = some 0) ∨
      (∃ e s, (resolveGeometry true bdPico).fsEnd = some e ∧
        (resolveGeometry true bdPico).fsStart = some s ∧ e ≤ s)) ∧
    ((runPipeline inPico).2 ≠ Outcome.missingFsConfig →
      ∃ e s, (resolveGeometry true bdPico).fsEnd = some e ∧
        (resolveGeometry true bdPico).fsStart = some s ∧
        jsSub (resolveGeometry true bdPico).fsEnd (resolveGeometry true bdPico).fsStart =
          some (e - s) ∧
        0 < e - s ∧
        jsStr (jsSub (resolveGeometry true bdPico).fsEnd (resolveGeometry true bdPico).fsStart) =
          toString (e - s)) :=
  geometry_validation_iff inPico bdPico "vendor:rp2040:boardX" true rfl rfl rfl (by decide)

/-- C2: every run that reaches the build stage spawns the builder first, with
the argument list exactly -c dataFolder -p page -b block -s (end minus start)
imageFile, and for the rp2040 family the page and block slots are the fixed
texts 256 and 4096. -/
theorem builder_args_exact (inp : PipelineInput) (bd : BoardDetails) (fqbn : String)
    (pico : Bool) (serialPort : String)
    (h1 : inp.boardDetails = some bd) (h2 : inp.fqbn = some fqbn)
    (h3 : inp.dataFolderExists = true) (h4 : familyOf fqbn = some pico)
    (h5 : geoInvalid (resolveGeometry pico bd) = false)
    (h6 : inp.portAddress = some serialPort) (h7 : inp.portProtocol = some "serial") :
    ∃ e s : Int, (resolveGeometry pico bd).fsEnd = some e ∧
      (resolveGeometry pico bd).fsStart = some s ∧
      firstSpawn (runPipeline inp).1 =
        some (mkCmd inp.isWin32 bd pico,
          ["-c", inp.sketchPath ++ "/data", "-p", jsStr (resolveGeometry pico bd).page,
           "-b", jsStr (resolveGeometry pico bd).blocksize, "-s", toString (e - s),
           inp.tmpName]) ∧
      (pico = true → jsStr (resolveGeometry pico bd).page = "256" ∧
        jsStr (resolveGeometry pico bd).blocksize = "4096") := by
  obtain ⟨hfS, hfE, hpage, hblock, _⟩ := geoValid_parts _ h5
  obtain ⟨e, he, _⟩ := (jsFalsy_false_iff _).mp hfE
  obtain ⟨s, hs, _⟩ := (jsFalsy_false_iff _).mp hfS
  refine ⟨e, s, he, hs, ?_, ?_⟩
  · have hmain := runPipeline_tmp_main inp inp.tmpName bd fqbn pico serialPort
      h1 h2 h3 h4 h5 h6 h7
    have hself : { inp with tmpName := inp.tmpName } = inp := rfl
    rw [hself] at hmain
    rw [hmain]
    simp [mkBuildOpts, jsSub, he, hs, jsStr]
  · intro hpico
    subst hpico
    constructor
    · have hp256 : (resolveGeometry true bd).page = some 256 := by
        rw [resolveGeometry_page] at hpage ⊢
        cases hsel : lastOf (seekSel true bd.configOptions) with
        | none => rw [hsel] at hpage; simp [jsFalsy] at hpage
        | some v => simp [gPage]
      rw [hp256]; rfl
    · have hb4096 : (resolveGeometry true bd).blocksize = some 4096 := by
        rw [resolveGeometry_blocksize] at hblock ⊢
        cases hsel : lastOf (seekSel true bd.configOptions) with
        | none => rw [hsel] at hblock; simp [jsFalsy] at hblock
        | some v => simp [gBlock]
      rw [hb4096]; rfl

/-- C2 witness: the rp2040 sample run spawns the builder with the exact fixed
argument list. -/
theorem builder_args_exact_witness :
    ∃ e s : Int, (resolveGeometry true bdPico).fsEnd = some e ∧
      (resolveGeometry true bdPico).fsStart = some s ∧
      firstSpawn (runPipeline inPico).1 =
        some (mkCmd inPico.isWin32 bdPico true,
          ["-c", inPico.sketchPath ++ "/data", "-p", jsStr (resolveGeometry true bdPico).page,
           "-b", jsStr (resolveGeometry true bdPico).blocksize, "-s", toString (e - s),
           inPico.tmpName]) ∧
      (true = true → jsStr (resolveGeometry true bdPico).page = "256" ∧
        jsStr (resolveGeometry true bdPico).blocksize = "4096") :=
  builder_args_exact inPico bdPico "vendor:rp2040:boardX" true "/dev/ttyACM0"
    rfl rfl rfl (by decide) (by decide) rfl rfl

/-- C3: whenever the builder process exits with a non-zero code, at most one
process is ever spawned, and if any process was spawned at all the run ends
in the BuildFailure outcome carrying that code, with the failure message
written to the sink; in particular the uploader is never spawned. -/
theorem build_failure_stops_upload (inp : PipelineInput) (code : Int)
    (hx : inp.mkfsExit = some code) (hc : code ≠ 0) :
    ((runPipeline inp).1.filter isSpawn).length ≤ 1 ∧
    (∀ e ∈ (runPipeline inp).1, isSpawn e = true →
      (runPipeline inp).2 = Outcome.buildFailed code ∧
      Event.fired ("ERROR:  Mklittlefs failed, error code: " ++ toString code ++ "\r\n\r\n")
        ∈ (runPipeline inp).1) := by
  rcases runPipeline_cases inp with hearly | ⟨bd, fqbn, pico, port, h1, h2, h3, h4, h5, h6, h7⟩
  · have hnil : (runPipeline inp).1.filter isSpawn = [] :=
      List.filter_eq_nil_iff.mpr (fun e he => by simp [(hearly e he).1])
    refine ⟨by rw [hnil]; simp, ?_⟩
    intro e he hsp
    rw [(hearly e he).1] at hsp
    exact absurd hsp (by decide)
  · have hmain := runPipeline_main inp bd fqbn pico port h1 h2 h3 h4 h5 h6 h7
    obtain ⟨hfil, hout, hmem⟩ := afterPort_buildFail inp bd pico (resolveGeometry pico bd)
      (mkCmd inp.isWin32 bd pico) port code hx hc
    rw [hmain]
    constructor
    · simp [List.filter_append, List.filter_cons, tracePre, isSpawn, hfil]
    · intro e _ _
      refine ⟨by simpa using hout, ?_⟩
      simp only [List.mem_append, List.mem_cons]
      exact Or.inr (Or.inr hmem)

/-- C3 witness: when the builder exits 2 in the rp2040 sample run, exactly one
spawn happens and the outcome is BuildFailure 2. -/
theorem build_failure_stops_upload_witness :
    ((runPipeline inPicoFailBuild).1.filter isSpawn).length ≤ 1 ∧
    (∀ e ∈ (runPipeline inPicoFailBuild).1, isSpawn e = true →
      (runPipeline inPicoFailBuild).2 = Outcome.buildFailed 2 ∧
      Event.fired ("ERROR:  Mklittlefs failed, error code: " ++ toString (2 : Int) ++ "\r\n\r\n")
        ∈ (runPipeline inPicoFailBuild).1) :=
  build_failure_stops_upload inPicoFailBuild 2 rfl (by decide)

/-- C4: every esp8266 run that reaches the upload stage spawns the uploader
with arguments script, chip esp8266, port, baud, write_flash, start, image, in
that order, where the baud value is 115200 when no baud option value is
selected and the parsed last selected baud value otherwise. -/
theorem esp8266_upload_args (inp : PipelineInput) (bd : BoardDetails) (fqbn : String)
    (serialPort : String)
    (h1 : inp.boardDetails = some bd) (h2 : inp.fqbn = some fqbn)
    (h3 : inp.dataFolderExists = true) (h4 : familyOf fqbn = some false)
    (h5 : geoInvalid (resolveGeometry false bd) = false)
    (h6 : inp.portAddress = some serialPort) (h7 : inp.portProtocol = some "serial")
    (h8 : inp.mkfsExit = some 0) :
    Event.spawned (pyCmd inp.isWin32 bd false)
        [uploadScriptPath bd, "--chip", "esp8266", "--port", serialPort,
         "--baud", jsStr (resolveGeometry false bd).uploadSpeed, "write_flash",
         jsStr (resolveGeometry false bd).fsStart, inp.tmpName]
      ∈ (runPipeline inp).1 ∧
    (baudSel bd.configOptions = [] →
      (resolveGeometry false bd).uploadSpeed = some 115200 ∧
      jsStr (resolveGeometry false bd).uploadSpeed = "115200") ∧
    (∀ v, lastOf (baudSel bd.configOptions) = some v →
      (resolveGeometry false bd).uploadSpeed = jsNumberOfString v) := by
  refine ⟨?_, ?_, ?_⟩
  · rw [runPipeline_main inp bd fqbn false serialPort h1 h2 h3 h4 h5 h6 h7]
    have hm := afterPort_uploadSpawn inp bd (resolveGeometry false bd)
      (mkCmd inp.isWin32 bd false) serialPort h8
    simp only [List.mem_append, List.mem_cons]
    exact Or.inr (Or.inr hm)
  · intro hb
    have h9 : (resolveGeometry false bd).uploadSpeed = some 115200 := by
      rw [resolveGeometry_uploadSpeed, hb]
      rfl
    exact ⟨h9, by rw [h9]; rfl⟩
  · intro v hv
    rw [resolveGeometry_uploadSpeed, hv]

/-- C4 witness: the esp8266 sample run (selected baud 460800, spiffs start
0x200000) spawns the uploader with the exact documented arguments. -/
theorem esp8266_upload_args_witness :
    Event.spawned (pyCmd inEsp.isWin32 bdEsp false)
        [uploadScriptPath bdEsp, "--chip", "esp8266", "--port", "/dev/ttyUSB0",
         "--baud", jsStr (resolveGeometry false bdEsp).uploadSpeed, "write_flash",
         jsStr (resolveGeometry false bdEsp).fsStart, inEsp.tmpName]
      ∈ (runPipeline inEsp).1 ∧
    (baudSel bdEsp.configOptions = [] →
      (resolveGeometry false bdEsp).uploadSpeed = some 115200 ∧
      jsStr (resolveGeometry false bdEsp).uploadSpeed = "115200") ∧
    (∀ v, lastOf (baudSel bdEsp.configOptions) = some v →
      (resolveGeometry false bdEsp).uploadSpeed = jsNumberOfString v) :=
  esp8266_upload_args inEsp bdEsp "vendor:esp8266:boardY" "/dev/ttyUSB0"
    rfl rfl rfl (by decide) (by decide) rfl rfl rfl

/-- C5 counterexample: in the rp2040 sample run the first build-property tool
lookup (the mklittlefs lookup of extension.ts:144-152) happens strictly before
the serial-port validation of extension.ts:155-165, so the claimed order
(port checks before any tool location) is false. -/
theorem port_check_order_cex :
    seenBefore isPortValidated isToolLookup (runPipeline inPico).1 = false := by decide

/-- C5 amended: in every run, the builder-tool lookup precedes the serial-port
validation, and the serial-port validation precedes every process spawn (the
interpreter lookup and both spawns happen only after the port checks). -/
theorem port_check_order_amended (inp : PipelineInput) :
    seenBefore isToolLookup isPortValidated (runPipeline inp).1 = true ∧
    seenBefore isPortValidated isSpawn (runPipeline inp).1 = true := by
  rcases runPipeline_cases inp with hearly | ⟨bd, fqbn, pico, port, h1, h2, h3, h4, h5, h6, h7⟩
  · exact ⟨seenBefore_of_no_q _ _ _ (fun e he => (hearly e he).2),
      seenBefore_of_no_q _ _ _ (fun e he => (hearly e he).1)⟩
  · have hmain := runPipeline_main inp bd fqbn pico port h1 h2 h3 h4 h5 h6 h7
    have htr : (runPipeline inp).1 =
        tracePre pico ++ Event.portValidated ::
          (afterPort inp bd pico (resolveGeometry pico bd)
            (mkCmd inp.isWin32 bd pico) port).1 := by
      rw [hmain]
    rw [htr]
    constructor
    · rw [seenBefore_append]
      simp [tracePre, scanPQ, isToolLookup, isPortValidated]
    · rw [seenBefore_append]
      simp [tracePre, scanPQ, isPortValidated, isSpawn, seenBefore]

/-- C6 counterexample: the source rewrites every line feed, so a chunk that
already ends in carriage-return line-feed is forwarded with an extra carriage
return, not unchanged as the claim states. -/
theorem crlf_normalization_cex :
    normalizeChunk "a\r\n" = "a\r\r\n" ∧ normalizeBareLF "a\r\n" = "a\r\n" ∧
    normalizeChunk "a\r\n" ≠ normalizeBareLF "a\r\n" ∧
    Event.fired "a\r\r\n" ∈ (runPipeline inPicoChunk).1 := by decide

/-- C6 amended: the forwarded text rewrites every line feed to carriage-return
line-feed regardless of what precedes it; the claimed bare-line-feed-only
rewriting coincides with it exactly on chunks containing no carriage return. -/
theorem crlf_normalization_amended (s : String) (h : ∀ c ∈ s.data, c ≠ '\r') :
    normalizeChunk s = normalizeBareLF s := by
  simp only [normalizeChunk, normalizeBareLF]
  exact congrArg String.mk (bareLFAux_no_cr s.data h).symm

/-- C6 amended witness: a carriage-return-free chunk is normalized identically
by the source transform and the bare-line-feed transform. -/
theorem crlf_normalization_amended_witness :
    (∀ c ∈ ("a\nb" : String).data, c ≠ '\r') ∧
      normalizeChunk "a\nb" = normalizeBareLF "a\nb" :=
  ⟨by decide, crlf_normalization_amended "a\nb" (by decide)⟩

/-- C7 counterexample: when the builder cannot be spawned (modelled as its
close event never firing, since the source installs no error handler and
awaits only close at extension.ts:197-199), the run emits no SpawnFailure
message at all: the trace ends at the spawn attempt and the handler suspends
forever, contradicting the claim that the failure is surfaced as a distinct
user-visible message rather than the pipeline hanging. -/
theorem spawn_failure_cex :
    (runPipeline inPicoStall).2 = Outcome.stuck ∧
    lastOf (runPipeline inPicoStall).1 =
      some (Event.spawned "/tools/mk/mklittlefs"
        ["-c", "/sk/data", "-p", "256", "-b", "4096", "-s", "1048576",
         "/tmp/img.littlefs.bin"]) := by decide

/-- C7 amended: if a run reaches the build stage and the builder's close event
never fires (the observable behaviour of a spawn failure given that the source
handles no error event), the run suspends forever with the spawn attempt as
its last observable event, and no failure message of any kind is written. -/
theorem spawn_failure_amended (inp : PipelineInput) (bd : BoardDetails) (fqbn : String)
    (pico : Bool) (serialPort : String)
    (h1 : inp.boardDetails = some bd) (h2 : inp.fqbn = some fqbn)
    (h3 : inp.dataFolderExists = true) (h4 : familyOf fqbn = some pico)
    (h5 : geoInvalid (resolveGeometry pico bd) = false)
    (h6 : inp.portAddress = some serialPort) (h7 : inp.portProtocol = some "serial")
    (hx : inp.mkfsExit = none) (ho : inp.mkfsOut = []) (he2 : inp.mkfsErr = []) :
    (runPipeline inp).2 = Outcome.stuck ∧
    lastOf (runPipeline inp).1 =
      some (Event.spawned (mkCmd inp.isWin32 bd pico)
        (mkBuildOpts (inp.sketchPath ++ "/data") (resolveGeometry pico bd) inp.tmpName)) := by
  have hmain := runPipeline_main inp bd fqbn pico serialPort h1 h2 h3 h4 h5 h6 h7
  obtain ⟨hout, hlast⟩ := afterPort_stuckShape inp bd pico (resolveGeometry pico bd)
    (mkCmd inp.isWin32 bd pico) serialPort hx ho he2
  constructor
  · have hsnd : (runPipeline inp).2 =
        (afterPort inp bd pico (resolveGeometry pico bd)
          (mkCmd inp.isWin32 bd pico) serialPort).2 := by
      rw [hmain]
    rw [hsnd, hout]
  · have htr : (runPipeline inp).1 =
        tracePre pico ++ Event.portValidated ::
          (afterPort inp bd pico (resolveGeometry pico bd)
            (mkCmd inp.isWin32 bd pico) serialPort).1 := by
      rw [hmain]
    rw [htr, lastOf_append, lastOf_cons, hlast]
    rfl

/-- C7 amended witness: the rp2040 sample run with a never-closing builder
process ends stuck at the spawn attempt. -/
theorem spawn_failure_amended_witness :
    (runPipeline inPicoStall).2 = Outcome.stuck ∧
    lastOf (runPipeline inPicoStall).1 =
      some (Event.spawned (mkCmd inPicoStall.isWin32 bdPico true)
        (mkBuildOpts (inPicoStall.sketchPath ++ "/data") (resolveGeometry true bdPico)
          inPicoStall.tmpName)) :=
  spawn_failure_amended inPicoStall bdPico "vendor:rp2040:boardX" true "/dev/ttyACM0"
    rfl rfl rfl (by decide) (by decide) rfl rfl rfl rfl rfl

/-- C8 counterexample: two runs identical except for the generated temporary
file name produce builder argument lists that differ (in the final output-path
element), so the argument lists are not byte-identical as the claim states. -/
theorem idempotence_cex :
    firstSpawn (runPipeline inPico).1 =
      some ("/tools/mk/mklittlefs",
        ["-c", "/sk/data", "-p", "256", "-b", "4096", "-s", "1048576",
         "/tmp/img.littlefs.bin"]) ∧
    firstSpawn (runPipeline inPicoAltTmp).1 =
      some ("/tools/mk/mklittlefs",
        ["-c", "/sk/data", "-p", "256", "-b", "4096", "-s", "1048576",
         "/tmp/other.littlefs.bin"]) ∧
    firstSpawn (runPipeline inPico).1 ≠ firstSpawn (runPipeline inPicoAltTmp).1 := by decide

/-- C8 amended: two runs with identical inputs except the generated temporary
name spawn the same builder command with argument lists that agree on every
element except the last one, which is the respective fresh temporary name
(and one run spawns a builder exactly when the other does). -/
theorem idempotence_amended (inp : PipelineInput) (t1 t2 : String) :
    (match firstSpawn (runPipeline { inp with tmpName := t1 }).1,
           firstSpawn (runPipeline { inp with tmpName := t2 }).1 with
     | some (c1, a1), some (c2, a2) =>
         c1 = c2 ∧ a1.dropLast = a2.dropLast ∧ lastOf a1 = some t1 ∧ lastOf a2 = some t2
     | none, none => True
     | _, _ => False) := by
  rcases runPipeline_cases { inp with tmpName := t1 } with
    hA | ⟨bd, fqbn, pico, port, h1, h2, h3, h4, h5, h6, h7⟩
  · rcases runPipeline_cases { inp with tmpName := t2 } with
      hB | ⟨bd, fqbn, pico, port, h1, h2, h3, h4, h5, h6, h7⟩
    · rw [firstSpawn_eq_none _ (fun e he => (hA e he).1),
        firstSpawn_eq_none _ (fun e he => (hB e he).1)]
      trivial
    · exfalso
      have hsome := runPipeline_tmp_main inp t1 bd fqbn pico port h1 h2 h3 h4 h5 h6 h7
      have hnone := firstSpawn_eq_none _ (fun e he => (hA e he).1)
      rw [hsome] at hnone
      exact Option.noConfusion hnone
  · rcases runPipeline_cases { inp with tmpName := t2 } with
      hB | ⟨bd2, fqbn2, pico2, port2, k1, k2, k3, k4, k5, k6, k7⟩
    · exfalso
      have hsome := runPipeline_tmp_main inp t2 bd fqbn pico port h1 h2 h3 h4 h5 h6 h7
      have hnone := firstSpawn_eq_none _ (fun e he => (hB e he).1)
      rw [hsome] at hnone
      exact Option.noConfusion hnone
    · rw [runPipeline_tmp_main inp t1 bd fqbn pico port h1 h2 h3 h4 h5 h6 h7,
        runPipeline_tmp_main inp t2 bd fqbn pico port h1 h2 h3 h4 h5 h6 h7]
      refine ⟨rfl, ?_, ?_, ?_⟩
      · simp [mkBuildOpts, List.dropLast]
      · simp [mkBuildOpts, lastOf_cons, lastOf_nil, Option.or]
      · simp [mkBuildOpts, lastOf_cons, lastOf_nil, Option.or]

/-- C9: if the sizing option carries at least one selected value, the resolved
geometry is exactly the build-property lookups of the last selected value in
sequence order (each later selected value overwrites the earlier lookups). -/
theorem last_selected_wins (pico : Bool) (bd : BoardDetails) (v : String)
    (h : lastOf (seekSel pico bd.configOptions) = some v) :
    (resolveGeometry pico bd).fsStart = gStart pico bd v ∧
    (resolveGeometry pico bd).fsEnd = gEnd pico bd v ∧
    (resolveGeometry pico bd).page = gPage pico bd v ∧
    (resolveGeometry pico bd).blocksize = gBlock pico bd v := by
  refine ⟨?_, ?_, ?_, ?_⟩
  · rw [resolveGeometry_fsStart, h]
  · rw [resolveGeometry_fsEnd, h]
  · rw [resolveGeometry_page, h]
  · rw [resolveGeometry_blocksize, h]

/-- C9 witness: with two selected flash values the geometry comes from the
second (last) one: start 3, not 1. -/
theorem last_selected_wins_witness :
    lastOf (seekSel true bdTwoSel.configOptions) = some "2MB" ∧
    (resolveGeometry true bdTwoSel).fsStart = gStart true bdTwoSel "2MB" ∧
    (resolveGeometry true bdTwoSel).fsStart = some 3 :=
  ⟨by decide, (last_selected_wins true bdTwoSel "2MB" (by decide)).1, by decide⟩

/-- C10: a geometry field whose build property is absent or does not parse
(NaN, modelled as none) makes the validation gate fail, so the run aborts with
MissingFilesystemConfig; conversely a run that reaches the build stage has all
four fields parsed as nonzero integers and the builder arguments render them
as plain decimal integers, so a non-numeric text never reaches the tool. -/
theorem nonnumeric_aborts (pico : Bool) (bd : BoardDetails) :
    (((resolveGeometry pico bd).fsStart = none ∨ (resolveGeometry pico bd).fsEnd = none ∨
       (resolveGeometry pico bd).page = none ∨ (resolveGeometry pico bd).blocksize = none) →
      geoInvalid (resolveGeometry pico bd) = true) ∧
    (∀ inp fqbn serialPort, inp.boardDetails = some bd → inp.fqbn = some fqbn →
      inp.dataFolderExists = true → familyOf fqbn = some pico →
      inp.portAddress = some serialPort → inp.portProtocol = some "serial" →
      geoInvalid (resolveGeometry pico bd) = false →
      ∃ s e p b : Int,
        (resolveGeometry pico bd).fsStart = some s ∧ (resolveGeometry pico bd).fsEnd = some e ∧
        (resolveGeometry pico bd).page = some p ∧
        (resolveGeometry pico bd).blocksize = some b ∧
        firstSpawn (runPipeline inp).1 =
          some (mkCmd inp.isWin32 bd pico,
            ["-c", inp.sketchPath ++ "/data", "-p", toString p, "-b", toString b,
             "-s", toString (e - s), inp.tmpName])) := by
  constructor
  · intro h
    rw [geoInvalid_iff]
    rcases h with h | h | h | h
    · exact Or.inl (Or.inl h)
    · exact Or.inr (Or.inl (Or.inl h))
    · exact Or.inr (Or.inr (Or.inl (Or.inl h)))
    · exact Or.inr (Or.inr (Or.inr (Or.inl (Or.inl h))))
  · intro inp fqbn serialPort h1 h2 h3 h4 h6 h7 h5
    obtain ⟨hfS, hfE, hpage, hblock, _⟩ := geoValid_parts _ h5
    obtain ⟨s, hs, _⟩ := (jsFalsy_false_iff _).mp hfS
    obtain ⟨e, he, _⟩ := (jsFalsy_false_iff _).mp hfE
    obtain ⟨p, hp, _⟩ := (jsFalsy_false_iff _).mp hpage
    obtain ⟨b, hbk, _⟩ := (jsFalsy_false_iff _).mp hblock
    refine ⟨s, e, p, b, hs, he, hp, hbk, ?_⟩
    have hmain := runPipeline_tmp_main inp inp.tmpName bd fqbn pico serialPort
      h1 h2 h3 h4 h5 h6 h7
    have hself : { inp with tmpName := inp.tmpName } = inp := rfl
    rw [hself] at hmain
    rw [hmain]
    simp [mkBuildOpts, jsStr, jsSub, hs, he, hp, hbk]

/-- C10 witness: in the rp2040 sample run all four geometry fields parse and
the builder arguments are their decimal renderings. -/
theorem nonnumeric_aborts_witness :
    ∃ s e p b : Int,
      (resolveGeometry true bdPico).fsStart = some s ∧
      (resolveGeometry true bdPico).fsEnd = some e ∧
      (resolveGeometry true bdPico).page = some p ∧
      (resolveGeometry true bdPico).blocksize = some b ∧
      firstSpawn (runPipeline inPico).1 =
        some (mkCmd inPico.isWin32 bdPico true,
          ["-c", inPico.sketchPath ++ "/data", "-p", toString p, "-b", toString b,
           "-s", toString (e - s), inPico.tmpName]) :=
  (nonnumeric_aborts true bdPico).2 inPico "vendor:rp2040:boardX" "/dev/ttyACM0"
    rfl rfl rfl (by decide) rfl rfl (by decide)

end PicoLittleFS
